import Mathlib

/-!
Verification of the playlist-to-mix pipeline (audio analysis, compatibility
scoring, mix planning, job orchestration) of the jockee repository, shallowly
embedded in Lean 4.  Python dictionaries carrying track descriptors are
modelled as association lists of `PyVal` values; `None`-valued entries and
absent keys are kept distinct because `dict.get(k, default)` distinguishes
them.  Arithmetic is exact rational arithmetic; Python's `round(x, n)`
(round-half-to-even) is modelled by `round2`/`round1`.  A `try`/`except`
block that returns the partially filled result dictionary is modelled by
`Option`-valued step functions assembled in program order.
-/

/-- A Python value as stored in the track-descriptor dictionaries:
`None`, a number, or a string. -/
inductive PyVal where
  | none : PyVal
  | num : ℚ → PyVal
  | str : String → PyVal
deriving DecidableEq

/-- A Python dict with string keys, as an association list (first match wins,
mirroring insertion without duplicate keys). -/
def PyDict := List (String × PyVal)

/-- Python truthiness of a value: `None` is falsy, a number is truthy iff
nonzero, a string is truthy iff nonempty. -/
def truthy : PyVal → Bool
  | .none => false
  | .num q => q ≠ 0
  | .str s => s ≠ ""

/-- Python `d.get(k, dflt)`: value of the first entry with key `k`, else `dflt`. -/
def pyGetD (d : PyDict) (k : String) (dflt : PyVal) : PyVal :=
  match d.find? (fun p => p.1 == k) with
  | some p => p.2
  | Option.none => dflt

/-- Python `d.get(k)`: value of the first entry with key `k`, else `None`. -/
def pyGet (d : PyDict) (k : String) : PyVal :=
  pyGetD d k .none

/-- The keys of the dict, in order. -/
def pyKeys (d : PyDict) : List String := d.map (fun p => p.1)

/-- Round-half-to-even to an integer (Python's `round`), on exact rationals. -/
def roundHalfEven (q : ℚ) : ℤ :=
  if q - ⌊q⌋ < 1/2 then ⌊q⌋
  else if q - ⌊q⌋ > 1/2 then ⌊q⌋ + 1
  else if ⌊q⌋ % 2 = 0 then ⌊q⌋ else ⌊q⌋ + 1

/-- Python's `round(q, 2)` on exact rationals. -/
def round2 (q : ℚ) : ℚ := (roundHalfEven (q * 100) : ℚ) / 100

/-- Python's `round(q, 1)` on exact rationals. -/
def round1 (q : ℚ) : ℚ := (roundHalfEven (q * 10) : ℚ) / 10

/-- From `AudioAnalyzer._analyze_tempo`: the BPM folding step applied to the
raw detected tempo (`if bpm < 60: bpm *= 2 elif bpm > 200: bpm /= 2`). -/
def fold_bpm (bpm : ℚ) : ℚ :=
  if bpm < 60 then bpm * 2
  else if bpm > 200 then bpm / 2
  else bpm

/-- From `AudioAnalyzer._analyze_tempo`: the bpm value stored in the analysis
record, `round(bpm, 2)` of the folded tempo. -/
def stored_bpm (raw : ℚ) : ℚ := round2 (fold_bpm raw)

/-- From `AudioAnalyzer._calculate_key_compatibility`: the circle-of-fifths
position table (`key_positions`). -/
def key_positions (root : String) : Option ℕ :=
  if root = "C" then some 0
  else if root = "G" then some 1
  else if root = "D" then some 2
  else if root = "A" then some 3
  else if root = "E" then some 4
  else if root = "B" then some 5
  else if root = "F#" then some 6
  else if root = "C#" then some 7
  else if root = "G#" then some 8
  else if root = "D#" then some 9
  else if root = "A#" then some 10
  else if root = "F" then some 11
  else Option.none

/-- Python `key.replace("m", "")` for the single-character pattern `"m"`:
remove every `m` from the string. -/
def removeM (s : String) : String := String.mk (s.data.filter (fun c => c ≠ 'm'))

/-- Python `"m" in key`. -/
def hasM (s : String) : Bool := s.data.contains 'm'

/-- From `AudioAnalyzer._calculate_key_compatibility`: harmonic compatibility
of two key names. -/
def calculate_key_compatibility (key_a key_b : String) : ℚ :=
  if key_a = key_b then 1
  else
    let root_a := removeM key_a
    let root_b := removeM key_b
    let is_minor_a := hasM key_a
    let is_minor_b := hasM key_b
    match key_positions root_a, key_positions root_b with
    | some pos_a, some pos_b =>
      let distance := min ((pos_a : ℤ) - pos_b).natAbs (12 - ((pos_a : ℤ) - pos_b).natAbs)
      if distance = 0 then
        if is_minor_a = is_minor_b then 1 else 4/5
      else if distance = 1 then 7/10
      else if distance = 7 then 3/5
      else if distance = 2 then 2/5
      else 1/5
    | _, _ => 1/2

/-- From `AudioAnalyzer._are_compatible_styles`: the unordered compatible-pair
set, checked in both directions. -/
def are_compatible_styles (style_a style_b : String) : Bool :=
  let pairs : List (String × String) :=
    [("beat_driven", "electronic"), ("beat_driven", "melodic_focus"),
     ("melodic_focus", "acoustic"), ("ambient_texture", "melodic_focus"),
     ("acoustic", "melodic_focus"), ("electronic", "beat_driven")]
  pairs.contains (style_a, style_b) || pairs.contains (style_b, style_a)

/-- The record returned by `AudioAnalyzer.calculate_compatibility`:
five sub-scores and the weighted overall score. -/
structure Compat where
  bpm_compatibility : ℚ
  key_compatibility : ℚ
  energy_compatibility : ℚ
  style_compatibility : ℚ
  vocal_compatibility : ℚ
  overall_score : ℚ
deriving DecidableEq

/-- BPM step of `calculate_compatibility`.  `none` models a `TypeError`
raised inside the `try` block (a truthy non-numeric bpm); `some 0` is the
skip when either bpm is falsy. -/
def bpmScore (a b : PyDict) : Option ℚ :=
  if truthy (pyGet a "bpm") && truthy (pyGet b "bpm") then
    match pyGet a "bpm", pyGet b "bpm" with
    | .num bpm_a, .num bpm_b =>
      some (max 0 (1 - (|bpm_a - bpm_b| / max bpm_a bpm_b) / (6/100)))
    | _, _ => Option.none
  else some 0

/-- Key step of `calculate_compatibility`.  A truthy non-string key raises
(`.replace` on a number), modelled by `none`. -/
def keyScore (a b : PyDict) : Option ℚ :=
  if truthy (pyGet a "key") && truthy (pyGet b "key") then
    match pyGet a "key", pyGet b "key" with
    | .str key_a, .str key_b => some (calculate_key_compatibility key_a key_b)
    | _, _ => Option.none
  else some 0

/-- Python `track_a.get("outro_energy", track_a.get("energy", 0.5))`. -/
def resolvedOutro (a : PyDict) : PyVal :=
  pyGetD a "outro_energy" (pyGetD a "energy" (.num (1/2)))

/-- Python `track_b.get("intro_energy", track_b.get("energy", 0.5))`. -/
def resolvedIntro (b : PyDict) : PyVal :=
  pyGetD b "intro_energy" (pyGetD b "energy" (.num (1/2)))

/-- Energy step of `calculate_compatibility`: `1 - |outro_a - intro_b|`
clamped below at 0; non-numeric operands raise (`none`). -/
def energyScore (a b : PyDict) : Option ℚ :=
  match resolvedOutro a, resolvedIntro b with
  | .num x, .num y => some (max 0 (1 - |x - y|))
  | _, _ => Option.none

/-- Style step of `calculate_compatibility` (never raises): 1 on identical
dominant styles, 0.7 on a compatible pair, 0.3 otherwise, 0.5 when either
style entry is falsy. -/
def styleScore (a b : PyDict) : ℚ :=
  if truthy (pyGet a "dominant_style") && truthy (pyGet b "dominant_style") then
    if pyGet a "dominant_style" = pyGet b "dominant_style" then 1
    else
      match pyGet a "dominant_style", pyGet b "dominant_style" with
      | .str sa, .str sb => if are_compatible_styles sa sb then 7/10 else 3/10
      | _, _ => 3/10
  else 1/2

/-- Python `track.get("vocal_centric", track.get("speechiness", 0.0))`. -/
def resolvedVocal (d : PyDict) : PyVal :=
  pyGetD d "vocal_centric" (pyGetD d "speechiness" (.num 0))

/-- Vocal step of `calculate_compatibility`: 0.3 on a vocal clash (both above
0.7), else `max(0.3, 1 - |va - vb|)`; non-numeric operands raise (`none`). -/
def vocalScore (a b : PyDict) : Option ℚ :=
  match resolvedVocal a, resolvedVocal b with
  | .num va, .num vb =>
    some (if va > 7/10 ∧ vb > 7/10 then 3/10 else max (3/10) (1 - |va - vb|))
  | _, _ => Option.none

/-- From `AudioAnalyzer.calculate_compatibility`: the five sub-scores are
computed in program order inside a `try` block that, on an exception, returns
the result dictionary with the fields already assigned (later fields keep
their initial 0.0).  The overall score is the weighted sum
0.25·BPM + 0.20·Key + 0.30·Energy + 0.15·Style + 0.10·Vocal. -/
def calculate_compatibility (a b : PyDict) : Compat :=
  match bpmScore a b with
  | Option.none => ⟨0, 0, 0, 0, 0, 0⟩
  | some bc =>
    match keyScore a b with
    | Option.none => ⟨bc, 0, 0, 0, 0, 0⟩
    | some kc =>
      match energyScore a b with
      | Option.none => ⟨bc, kc, 0, 0, 0, 0⟩
      | some ec =>
        let sc := styleScore a b
        match vocalScore a b with
        | Option.none => ⟨bc, kc, ec, sc, 0, 0⟩
        | some vc =>
          ⟨bc, kc, ec, sc, vc,
            bc * (1/4) + kc * (1/5) + ec * (3/10) + sc * (3/20) + vc * (1/10)⟩

/-- The transition techniques of `mix_generator.TransitionTechnique`. -/
inductive TransitionTechnique where
  | crossfade
  | smooth_blend
  | quick_cut
  | beatmatch
  | creative
deriving DecidableEq

/-- From `MixGenerator._select_transition_technique`: first-match selection on
overall, BPM and energy scores. -/
def select_transition_technique (c : Compat) : TransitionTechnique :=
  if c.overall_score ≥ 4/5 ∧ c.bpm_compatibility ≥ 7/10 then .smooth_blend
  else if c.bpm_compatibility ≥ 4/5 then .beatmatch
  else if c.energy_compatibility < 3/10 then .quick_cut
  else if c.overall_score < 2/5 then .creative
  else .crossfade

/-- From `MixGenerator._create_transition`: the crossfade duration, from the
default 16 s (`default_crossfade_duration`), the 0.3 minimum-compatibility
override to 4 s, the smooth-blend ×1.5 and the quick-cut 2 s. -/
def transition_duration_for (c : Compat) (tech : TransitionTechnique) : ℚ :=
  if c.overall_score < 3/10 then 4
  else if tech = TransitionTechnique.smooth_blend then 16 * (3/2)
  else if tech = TransitionTechnique.quick_cut then 2
  else 16

/-- A compatibility record assembled directly from given sub-scores, with the
overall score computed exactly as `calculate_compatibility` computes it
(0.25·BPM + 0.20·Key + 0.30·Energy + 0.15·Style + 0.10·Vocal). -/
def scores_to_compat (b k e s v : ℚ) : Compat :=
  ⟨b, k, e, s, v, b * (1/4) + k * (1/5) + e * (3/10) + s * (3/20) + v * (1/10)⟩

/-- The fields of a `Track` record used by the mix generator: optional
analysis descriptors and the catalogue duration in seconds. -/
structure Track where
  bpm : Option ℚ
  key : Option String
  energy : Option ℚ
  danceability : Option ℚ
  valence : Option ℚ
  loudness : Option ℚ
  duration : Option ℚ
deriving DecidableEq

/-- An optional number as the Python value stored in a dict. -/
def optNum : Option ℚ → PyVal
  | Option.none => .none
  | some q => .num q

/-- An optional string as the Python value stored in a dict. -/
def optStr : Option String → PyVal
  | Option.none => .none
  | some s => .str s

/-- From `MixGenerator._track_to_dict_enhanced`: the dict handed to
`calculate_compatibility` for each track of a pair.  The `_style_data` and
`_mix_points` attributes are read with `getattr(track, _, None)` and are never
assigned anywhere in the code base, so those two entries are always `None`. -/
def track_to_dict_enhanced (t : Track) : PyDict :=
  [("bpm", optNum t.bpm), ("key", optStr t.key), ("energy", optNum t.energy),
   ("danceability", optNum t.danceability), ("valence", optNum t.valence),
   ("loudness", optNum t.loudness), ("style_data", .none), ("mix_points", .none)]

/-- From `MixGenerator._find_transition_start`: without a usable duration the
fallback is 60 s; otherwise the start is the midpoint of
`[max(duration - 64, duration * 0.75), duration - 16]`, clamped below at 0 and
rounded to 2 decimals.  (`16 = default_crossfade_duration`.) -/
def find_transition_start (t : Track) : ℚ :=
  match t.duration with
  | Option.none => 60
  | some d =>
    if d = 0 then 60
    else
      let min_transition_start := max (d - 64) (d * (3/4))
      let max_transition_start := d - 16
      round2 (max 0 ((min_transition_start + max_transition_start) / 2))

/-- From `MixGenerator._find_enhanced_transition_start`: the `_mix_points`
attribute is never assigned, so `getattr(track_a, '_mix_points', None)` is
always `None` and the basic calculation is always used. -/
def find_enhanced_transition_start (track_a : Track) : ℚ :=
  find_transition_start track_a

/-- From `MixGenerator._calculate_bpm_adjustment`: signed percentage
adjustment, 0 when either bpm is falsy. -/
def calculate_bpm_adjustment (bpm_a bpm_b : Option ℚ) : ℚ :=
  match bpm_a, bpm_b with
  | some a, some b => if a = 0 ∨ b = 0 then 0 else round2 ((b - a) / a * 100)
  | _, _ => 0

/-- The transition record produced by `MixGenerator._create_transition`. -/
structure MixTransition where
  position : ℕ
  transition_start : ℚ
  transition_duration : ℚ
  technique : TransitionTechnique
  bpm_adjustment : ℚ
  bpm_compatibility : ℚ
  key_compatibility : ℚ
  energy_compatibility : ℚ
  overall_score : ℚ
deriving DecidableEq

/-- From `MixGenerator._create_transition`: compatibility on the enhanced
dicts, technique selection, duration adjustment (4 s below the 0.3 minimum
compatibility, 24 s for smooth blends, 2 s for quick cuts, else the 16 s
default) and the basic transition start. -/
def create_transition (track_a track_b : Track) (position : ℕ) : MixTransition :=
  let compat := calculate_compatibility (track_to_dict_enhanced track_a)
      (track_to_dict_enhanced track_b)
  let technique := select_transition_technique compat
  let crossfade_duration := transition_duration_for compat technique
  { position := position
    transition_start := find_enhanced_transition_start track_a
    transition_duration := crossfade_duration
    technique := technique
    bpm_adjustment := calculate_bpm_adjustment track_a.bpm track_b.bpm
    bpm_compatibility := compat.bpm_compatibility
    key_compatibility := compat.key_compatibility
    energy_compatibility := compat.energy_compatibility
    overall_score := compat.overall_score }

/-- The file-source tag of a track (`models.track.FileSource`). -/
inductive FileSource where
  | s3
  | local_file
  | youtube
  | unavailable
deriving DecidableEq

/-- Per-track outcome observed by the orchestrator loop in
`_analyze_playlist_async`: either `process_single_track` returned the track
(always truthy) with its final file source, or it raised. -/
inductive TrackOutcome where
  | processed : FileSource → TrackOutcome
  | raised : TrackOutcome
deriving DecidableEq

/-- The counter fields of an `AnalysisJob` row. -/
structure JobCounters where
  total_tracks : ℕ
  analyzed_tracks : ℕ
  downloaded_tracks : ℕ
  failed_tracks : ℕ
deriving DecidableEq

/-- One iteration of the per-track loop of `_analyze_playlist_async`
(lines 89-134): a returned track is appended to `processed_tracks` and
`analyzed_tracks = len(processed_tracks)`; a YouTube source bumps
`downloaded_tracks`, an unavailable source bumps `failed_tracks`; an exception
bumps `failed_tracks` only. -/
def track_loop_step (c : JobCounters) (o : TrackOutcome) : JobCounters :=
  match o with
  | .raised => { c with failed_tracks := c.failed_tracks + 1 }
  | .processed src =>
    let c := { c with analyzed_tracks := c.analyzed_tracks + 1 }
    if src = FileSource.youtube then
      { c with downloaded_tracks := c.downloaded_tracks + 1 }
    else if src = FileSource.unavailable then
      { c with failed_tracks := c.failed_tracks + 1 }
    else c

/-- The committed counter states of a job run over the given per-track
outcomes: the commit after `total_tracks` is set (all other counters still at
their 0 defaults), then one commit per track. -/
def job_commits (outcomes : List TrackOutcome) : List JobCounters :=
  List.scanl track_loop_step
    { total_tracks := outcomes.length, analyzed_tracks := 0,
      downloaded_tracks := 0, failed_tracks := 0 } outcomes

/-- Job lifecycle states (`models.job.JobStatus`). -/
inductive JobStatus where
  | pending
  | processing
  | completed
  | failed
deriving DecidableEq

/-- The fields of an `AnalysisJob` row read and written by the submission
endpoint. -/
structure AnalysisJob where
  id : ℕ
  playlist_url : String
  status : JobStatus
  counters : JobCounters
  error_message : Option String
deriving DecidableEq

/-- From `jobs.analyze_playlist`: the dedup filter — same playlist url and
status in `{pending, processing}`. -/
def is_active_for (url : String) (j : AnalysisJob) : Bool :=
  j.playlist_url == url &&
    (j.status == JobStatus.pending || j.status == JobStatus.processing)

/-- From `jobs._calculate_progress`. -/
def calculate_progress (j : AnalysisJob) : ℚ :=
  if j.counters.total_tracks = 0 then 0
  else if j.status = JobStatus.completed then 100
  else if j.status = JobStatus.failed then 0
  else round1 (min ((j.counters.analyzed_tracks : ℚ) / j.counters.total_tracks * 100) 99)

/-- The response body of the submission endpoint (the fields the claims are
about). -/
structure JobStatusResponse where
  id : ℕ
  status : JobStatus
  total_tracks : ℕ
  analyzed_tracks : ℕ
  downloaded_tracks : ℕ
  failed_tracks : ℕ
  progress_percentage : ℚ
  error_message : Option String
deriving DecidableEq

/-- The response built from an existing job (lines 74-87 of `jobs.py`). -/
def response_of (j : AnalysisJob) : JobStatusResponse :=
  { id := j.id, status := j.status, total_tracks := j.counters.total_tracks,
    analyzed_tracks := j.counters.analyzed_tracks,
    downloaded_tracks := j.counters.downloaded_tracks,
    failed_tracks := j.counters.failed_tracks,
    progress_percentage := calculate_progress j,
    error_message := j.error_message }

/-- A freshly created job row: status defaults to pending, counters to 0. -/
def new_job (id : ℕ) (url : String) : AnalysisJob :=
  { id := id, playlist_url := url, status := JobStatus.pending,
    counters := { total_tracks := 0, analyzed_tracks := 0,
                  downloaded_tracks := 0, failed_tracks := 0 },
    error_message := Option.none }

/-- From `jobs.analyze_playlist` (after URL validation): if some job for the
same playlist url is pending or processing, return its status response and
leave the database unchanged; otherwise insert a new pending job (with the
next fresh id) and return its response with progress 0. -/
def analyze_playlist (db : List AnalysisJob) (url : String) (fresh_id : ℕ) :
    JobStatusResponse × List AnalysisJob :=
  match db.find? (is_active_for url) with
  | some existing_job => (response_of existing_job, db)
  | Option.none =>
    let j := new_job fresh_id url
    ({ response_of j with progress_percentage := 0 }, db ++ [j])

/-- Python `\w` on ASCII: letters, digits and underscore. -/
def isWordChar (c : Char) : Bool := c.isAlphanum || c = '_'

/-- From `S3StorageService._sanitize_for_s3_key`:
`re.sub(r'[^\w\-_.]', '_', text)`. -/
def replaceHostile (l : List Char) : List Char :=
  l.map (fun c => if isWordChar c || c = '-' || c = '.' then c else '_')

/-- From `S3StorageService._sanitize_for_s3_key`: `re.sub(r'_+', '_', _)` —
collapse runs of underscores. -/
def collapseUnderscores : List Char → List Char
  | [] => []
  | [c] => [c]
  | c :: d :: rest =>
    if c = '_' && d = '_' then collapseUnderscores (d :: rest)
    else c :: collapseUnderscores (d :: rest)

/-- From `S3StorageService._sanitize_for_s3_key`: `.strip('_')`. -/
def stripUnderscores (l : List Char) : List Char :=
  ((l.dropWhile (fun c => c = '_')).reverse.dropWhile (fun c => c = '_')).reverse

/-- From `S3StorageService._sanitize_for_s3_key`. -/
def sanitize_for_s3_key (text : String) : String :=
  String.mk (stripUnderscores (collapseUnderscores (replaceHostile text.data)))

/-- From `S3StorageService.generate_s3_key`: the object key built from the
sanitised artist and title plus the first 8 characters of a freshly drawn
`uuid4` (an explicit parameter of the embedding, since it is randomness). -/
def generate_s3_key (artist title : String) (uuid8 : String) : String :=
  "audio/" ++ sanitize_for_s3_key artist ++ "/" ++ sanitize_for_s3_key title
    ++ "_" ++ uuid8 ++ ".mp3"

/-- Witness/counterexample track: 120 BPM, key C, energy 0.5, 100 s long. -/
def cexTrackA : Track :=
  ⟨some 120, some "C", some (1/2), Option.none, Option.none, Option.none, some 100⟩

/-- Witness/counterexample track: 120 BPM, key C, energy 0.5, unknown length. -/
def cexTrackB : Track :=
  ⟨some 120, some "C", some (1/2), Option.none, Option.none, Option.none, Option.none⟩

/-- Witness track without a key: 120 BPM, energy 0.5, 100 s long. -/
def cexTrackNoKey : Track :=
  ⟨some 120, Option.none, some (1/2), Option.none, Option.none, Option.none, some 100⟩

/-- Witness track with a bpm but a null energy descriptor. -/
def cexTrackNullEnergy : Track :=
  ⟨some 120, Option.none, Option.none, Option.none, Option.none, Option.none, Option.none⟩

/-- Witness dict: energy 0.5 plus a key entry. -/
def c9DictA : PyDict := [("energy", .num (1/2)), ("key", .str "C")]

/-- Witness dict: energy 0.5 only. -/
def c9DictA2 : PyDict := [("energy", .num (1/2))]

/-- Witness dict: energy 0.3 only. -/
def c9DictB : PyDict := [("energy", .num (3/10))]

/-- Witness dict: intro energy 0.3 with a different whole-track energy. -/
def c9DictB2 : PyDict := [("intro_energy", .num (3/10)), ("energy", .num (9/10))]

/-- Entry shape of a track record's bpm: absent/None or a non-negative
number (the data model stores detected tempi, never strings or negatives). -/
def bpm_entry_ok : PyVal → Bool
  | .none => true
  | .num q => decide (0 ≤ q)
  | .str _ => false

/-- Entry shape of a track record's key: absent/None or a string. -/
def key_entry_ok : PyVal → Bool
  | .num _ => false
  | _ => true

/-- A numeric value in the unit interval. -/
def unit_num : PyVal → Bool
  | .num q => decide (0 ≤ q) && decide (q ≤ 1)
  | _ => false

/-- A dict that is a well-formed track record for the compatibility scorer:
bpm absent or a non-negative number, key absent or a string, and the resolved
energy (outro/intro fallbacks included) and vocal descriptors numbers
in [0, 1]. -/
def track_record_ok (d : PyDict) : Bool :=
  bpm_entry_ok (pyGet d "bpm") && key_entry_ok (pyGet d "key") &&
    unit_num (resolvedOutro d) && unit_num (resolvedIntro d) &&
    unit_num (resolvedVocal d)

section RoundingLemmas

theorem roundHalfEven_le (q : ℚ) : (roundHalfEven q : ℚ) ≤ q + 1/2 := by
  have h1 := Int.floor_le q
  have h2 := Int.lt_floor_add_one q
  unfold roundHalfEven
  split_ifs <;> push_cast <;> linarith

theorem le_roundHalfEven (q : ℚ) : q - 1/2 ≤ (roundHalfEven q : ℚ) := by
  have h1 := Int.floor_le q
  have h2 := Int.lt_floor_add_one q
  unfold roundHalfEven
  split_ifs <;> push_cast <;> linarith

theorem roundHalfEven_intCast (n : ℤ) : roundHalfEven (n : ℚ) = n := by
  unfold roundHalfEven
  rw [Int.floor_intCast]
  simp

theorem roundHalfEven_mono {x y : ℚ} (h : x ≤ y) : roundHalfEven x ≤ roundHalfEven y := by
  have hfl : ⌊x⌋ ≤ ⌊y⌋ := Int.floor_le_floor h
  rcases lt_or_eq_of_le hfl with hlt | heq
  · have hx : roundHalfEven x ≤ ⌊x⌋ + 1 := by
      unfold roundHalfEven; split_ifs <;> omega
    have hy : ⌊y⌋ ≤ roundHalfEven y := by
      unfold roundHalfEven; split_ifs <;> omega
    omega
  · have hx1 := Int.floor_le x
    have hy2 := Int.lt_floor_add_one y
    unfold roundHalfEven
    rw [← heq]
    split_ifs <;> first | omega | (exfalso; linarith)

theorem round2_le (q : ℚ) : round2 q ≤ q + 1/200 := by
  have := roundHalfEven_le (q * 100)
  unfold round2
  linarith

theorem le_round2 (q : ℚ) : q - 1/200 ≤ round2 q := by
  have := le_roundHalfEven (q * 100)
  unfold round2
  linarith

theorem round2_mono {x y : ℚ} (h : x ≤ y) : round2 x ≤ round2 y := by
  have hm : roundHalfEven (x * 100) ≤ roundHalfEven (y * 100) :=
    roundHalfEven_mono (by linarith)
  unfold round2
  have : (roundHalfEven (x * 100) : ℚ) ≤ (roundHalfEven (y * 100) : ℚ) := by
    exact_mod_cast hm
  linarith

end RoundingLemmas

section ScoreLemmas

theorem calculate_key_compatibility_bounds (x y : String) :
    0 ≤ calculate_key_compatibility x y ∧ calculate_key_compatibility x y ≤ 1 := by
  unfold calculate_key_compatibility
  by_cases hxy : x = y
  · simp [hxy]
  · rw [if_neg hxy]
    rcases hx : key_positions (removeM x) with _ | pa <;>
      rcases hy : key_positions (removeM y) with _ | pb <;>
        simp only [hx, hy] <;> (try split_ifs) <;> norm_num

theorem calculate_key_compatibility_comm (x y : String) :
    calculate_key_compatibility x y = calculate_key_compatibility y x := by
  unfold calculate_key_compatibility
  by_cases hxy : x = y
  · simp [hxy]
  · have hyx : ¬ y = x := fun h => hxy h.symm
    rw [if_neg hxy, if_neg hyx]
    rcases hx : key_positions (removeM x) with _ | pa <;>
      rcases hy : key_positions (removeM y) with _ | pb <;>
        simp only [hx, hy] <;> try rfl
    have hd : ((pa : ℤ) - pb).natAbs = ((pb : ℤ) - pa).natAbs := by omega
    rw [hd]
    split_ifs <;> first | rfl | simp_all

theorem bpmScore_comm (a b : PyDict) : bpmScore a b = bpmScore b a := by
  unfold bpmScore
  rw [Bool.and_comm]
  rcases pyGet a "bpm" with _ | qa | sa <;> rcases pyGet b "bpm" with _ | qb | sb <;>
    dsimp only <;> split_ifs <;> try rfl
  rw [abs_sub_comm qa qb, max_comm qa qb]

theorem keyScore_comm (a b : PyDict) : keyScore a b = keyScore b a := by
  unfold keyScore
  rw [Bool.and_comm]
  rcases pyGet a "key" with _ | qa | sa <;> rcases pyGet b "key" with _ | qb | sb <;>
    dsimp only <;> split_ifs <;> try rfl
  rw [calculate_key_compatibility_comm sa sb]

theorem calc_bpm_field (a b : PyDict) :
    (calculate_compatibility a b).bpm_compatibility = (bpmScore a b).getD 0 := by
  unfold calculate_compatibility
  rcases bpmScore a b with _ | bc <;>
    rcases keyScore a b with _ | kc <;>
      rcases energyScore a b with _ | ec <;>
        rcases vocalScore a b with _ | vc <;> rfl

theorem calc_key_field (a b : PyDict) :
    (calculate_compatibility a b).key_compatibility =
      if (bpmScore a b).isSome then (keyScore a b).getD 0 else 0 := by
  unfold calculate_compatibility
  rcases bpmScore a b with _ | bc <;>
    rcases keyScore a b with _ | kc <;>
      rcases energyScore a b with _ | ec <;>
        rcases vocalScore a b with _ | vc <;> rfl

theorem calc_energy_field (a b : PyDict) :
    (calculate_compatibility a b).energy_compatibility =
      if (bpmScore a b).isSome ∧ (keyScore a b).isSome then
        (energyScore a b).getD 0
      else 0 := by
  unfold calculate_compatibility
  rcases bpmScore a b with _ | bc <;>
    rcases keyScore a b with _ | kc <;>
      rcases energyScore a b with _ | ec <;>
        rcases vocalScore a b with _ | vc <;> simp

theorem energyScore_congr {a b a' b' : PyDict}
    (h1 : resolvedOutro a = resolvedOutro a') (h2 : resolvedIntro b = resolvedIntro b') :
    energyScore a b = energyScore a' b' := by
  unfold energyScore
  rw [h1, h2]

theorem bpmScore_ok {a b : PyDict}
    (ha : bpm_entry_ok (pyGet a "bpm") = true)
    (hb : bpm_entry_ok (pyGet b "bpm") = true) :
    ∃ q, bpmScore a b = some q ∧ 0 ≤ q ∧ q ≤ 1 := by
  unfold bpmScore
  by_cases hc : (truthy (pyGet a "bpm") && truthy (pyGet b "bpm")) = true
  · rw [if_pos hc]
    rw [Bool.and_eq_true] at hc
    obtain ⟨h1, h2⟩ := hc
    rcases hva : pyGet a "bpm" with _ | qa | sa
    · rw [hva] at h1; exact absurd h1 (by simp [truthy])
    · rcases hvb : pyGet b "bpm" with _ | qb | sb
      · rw [hvb] at h2; exact absurd h2 (by simp [truthy])
      · rw [hva] at ha h1; rw [hvb] at hb h2
        simp only [bpm_entry_ok, truthy, decide_eq_true_eq] at ha hb h1 h2
        have hqa : 0 < qa := lt_of_le_of_ne ha (Ne.symm h1)
        have hmax : 0 < max qa qb := lt_max_of_lt_left hqa
        refine ⟨_, rfl, le_max_left _ _, ?_⟩
        have hnn : 0 ≤ |qa - qb| / max qa qb / (6/100) := by positivity
        exact max_le (by norm_num) (by linarith)
      · rw [hvb] at hb; exact absurd hb (by simp [bpm_entry_ok])
    · rw [hva] at ha; exact absurd ha (by simp [bpm_entry_ok])
  · rw [if_neg hc]
    exact ⟨0, rfl, le_refl 0, by norm_num⟩

theorem keyScore_ok {a b : PyDict}
    (ha : key_entry_ok (pyGet a "key") = true)
    (hb : key_entry_ok (pyGet b "key") = true) :
    ∃ q, keyScore a b = some q ∧ 0 ≤ q ∧ q ≤ 1 := by
  unfold keyScore
  by_cases hc : (truthy (pyGet a "key") && truthy (pyGet b "key")) = true
  · rw [if_pos hc]
    rw [Bool.and_eq_true] at hc
    obtain ⟨h1, h2⟩ := hc
    rcases hva : pyGet a "key" with _ | qa | sa
    · rw [hva] at h1; exact absurd h1 (by simp [truthy])
    · rw [hva] at ha; exact absurd ha (by simp [key_entry_ok])
    · rcases hvb : pyGet b "key" with _ | qb | sb
      · rw [hvb] at h2; exact absurd h2 (by simp [truthy])
      · rw [hvb] at hb; exact absurd hb (by simp [key_entry_ok])
      · obtain ⟨hl, hr⟩ := calculate_key_compatibility_bounds sa sb
        exact ⟨_, rfl, hl, hr⟩
  · rw [if_neg hc]
    exact ⟨0, rfl, le_refl 0, by norm_num⟩

theorem energyScore_ok {a b : PyDict}
    (ha : unit_num (resolvedOutro a) = true)
    (hb : unit_num (resolvedIntro b) = true) :
    ∃ q, energyScore a b = some q ∧ 0 ≤ q ∧ q ≤ 1 := by
  unfold energyScore
  rcases hva : resolvedOutro a with _ | x | sa <;> rw [hva] at ha <;>
    simp only [unit_num] at ha
  · exact absurd ha (by simp)
  · rcases hvb : resolvedIntro b with _ | y | sb <;> rw [hvb] at hb <;>
      simp only [unit_num] at hb
    · exact absurd hb (by simp)
    · refine ⟨_, rfl, le_max_left _ _, max_le (by norm_num) ?_⟩
      have := abs_nonneg (x - y)
      linarith
    · exact absurd hb (by simp)
  · exact absurd ha (by simp)

theorem styleScore_bounds (a b : PyDict) :
    0 ≤ styleScore a b ∧ styleScore a b ≤ 1 := by
  unfold styleScore
  split_ifs <;> try norm_num
  rcases pyGet a "dominant_style" with _ | qa | sa <;>
    rcases pyGet b "dominant_style" with _ | qb | sb <;>
      dsimp only <;> (try split_ifs) <;> norm_num

theorem vocalScore_ok {a b : PyDict}
    (ha : unit_num (resolvedVocal a) = true)
    (hb : unit_num (resolvedVocal b) = true) :
    ∃ q, vocalScore a b = some q ∧ 0 ≤ q ∧ q ≤ 1 := by
  unfold vocalScore
  rcases hva : resolvedVocal a with _ | x | sa <;> rw [hva] at ha <;>
    simp only [unit_num] at ha
  · exact absurd ha (by simp)
  · rcases hvb : resolvedVocal b with _ | y | sb <;> rw [hvb] at hb <;>
      simp only [unit_num] at hb
    · exact absurd hb (by simp)
    · refine ⟨_, rfl, ?_, ?_⟩
      · split_ifs <;> [norm_num; exact le_trans (by norm_num) (le_max_left _ _)]
      · split_ifs with hcl
        · norm_num
        · have := abs_nonneg (x - y)
          exact max_le (by norm_num) (by linarith)
    · exact absurd hb (by simp)
  · exact absurd ha (by simp)

end ScoreLemmas

/-- C1, first scenario: the technique selector on sub-scores BPM 0.9, Key 0.9,
Energy 0.7, Style 1.0, Vocal 1.0 (overall 0.865, the weighted sum) picks
`smooth_blend` with duration 24 s.  Second scenario (Energy 0.1, overall
0.685): the `bpm_compatibility >= 0.8` branch fires before the low-energy
branch, so the selector picks `beatmatch` with the default 16 s duration, not
`quick_cut` with 2 s. -/
theorem C1_technique_selection_amended :
    (scores_to_compat (9/10) (9/10) (7/10) 1 1).overall_score = 173/200 ∧
    select_transition_technique (scores_to_compat (9/10) (9/10) (7/10) 1 1) =
      TransitionTechnique.smooth_blend ∧
    transition_duration_for (scores_to_compat (9/10) (9/10) (7/10) 1 1)
      (select_transition_technique (scores_to_compat (9/10) (9/10) (7/10) 1 1)) = 24 ∧
    (scores_to_compat (9/10) (9/10) (1/10) 1 1).overall_score = 137/200 ∧
    select_transition_technique (scores_to_compat (9/10) (9/10) (1/10) 1 1) =
      TransitionTechnique.beatmatch ∧
    transition_duration_for (scores_to_compat (9/10) (9/10) (1/10) 1 1)
      (select_transition_technique (scores_to_compat (9/10) (9/10) (1/10) 1 1)) = 16 := by
  refine ⟨by norm_num [scores_to_compat], ?_, ?_, by norm_num [scores_to_compat], ?_, ?_⟩ <;>
    norm_num [scores_to_compat, select_transition_technique, transition_duration_for] <;>
      simp

/-- C1, counterexample to the claim as stated: on sub-scores BPM 0.9, Key 0.9,
Energy 0.1, Style 1.0, Vocal 1.0 the selector returns `beatmatch` (the BPM
branch precedes the energy branch), not `quick_cut`, and the duration is 16 s,
not 2 s. -/
theorem C1_quick_cut_counterexample :
    select_transition_technique (scores_to_compat (9/10) (9/10) (1/10) 1 1) ≠
      TransitionTechnique.quick_cut ∧
    transition_duration_for (scores_to_compat (9/10) (9/10) (1/10) 1 1)
      (select_transition_technique (scores_to_compat (9/10) (9/10) (1/10) 1 1)) ≠ 2 := by
  constructor
  · norm_num [scores_to_compat, select_transition_technique]
    simp
  · norm_num [scores_to_compat, select_transition_technique, transition_duration_for]
    simp

/-- C3, as amended: key compatibility is 0.7 for C and G (distance 1) and 0.2
for C and F# (distance 6), as claimed; but for C and Am the roots are C and A
(distance 3 on the circle), giving 0.2 — the 0.8 same-root-different-mode
value arises for parallel keys such as C and Cm, not for C and Am. -/
theorem C3_key_wheel_amended :
    calculate_key_compatibility "C" "G" = 7/10 ∧
    calculate_key_compatibility "C" "Am" = 1/5 ∧
    calculate_key_compatibility "C" "F#" = 1/5 ∧
    calculate_key_compatibility "C" "Cm" = 4/5 := by
  refine ⟨?_, ?_, ?_, ?_⟩ <;>
    simp +decide [calculate_key_compatibility, removeM, hasM, key_positions]

/-- C3, counterexample to the claim as stated: the key compatibility of C and
Am is 0.2, not 0.8 (Am's root is A, three steps from C on the wheel). -/
theorem C3_c_am_counterexample :
    calculate_key_compatibility "C" "Am" = 1/5 ∧ (1/5 : ℚ) ≠ 4/5 := by
  constructor
  · simp +decide [calculate_key_compatibility, removeM, hasM, key_positions]
  · norm_num

/-- C4, as amended: the folding step is applied once, so the stored bpm lands
in [60, 200] for raw tempi in [30, 400] (in particular raw 45 is stored as 90
and raw 210 as 105); outside that range a single doubling/halving is not
enough. -/
theorem C4_bpm_folding_amended :
    (∀ raw : ℚ, 30 ≤ raw → raw ≤ 400 →
      60 ≤ stored_bpm raw ∧ stored_bpm raw ≤ 200) ∧
    stored_bpm 45 = 90 ∧ stored_bpm 210 = 105 := by
  refine ⟨?_, ?_, ?_⟩
  · intro raw h30 h400
    have e60 : round2 60 = 60 := by norm_num [round2, roundHalfEven]
    have e200 : round2 200 = 200 := by norm_num [round2, roundHalfEven]
    unfold stored_bpm fold_bpm
    split_ifs with h1 h2
    · constructor
      · calc (60 : ℚ) = round2 60 := e60.symm
          _ ≤ round2 (raw * 2) := round2_mono (by linarith)
      · calc round2 (raw * 2) ≤ round2 200 := round2_mono (by linarith)
          _ = 200 := e200
    · constructor
      · calc (60 : ℚ) = round2 60 := e60.symm
          _ ≤ round2 (raw / 2) := round2_mono (by linarith)
      · calc round2 (raw / 2) ≤ round2 200 := round2_mono (by linarith)
          _ = 200 := e200
    · constructor
      · calc (60 : ℚ) = round2 60 := e60.symm
          _ ≤ round2 raw := round2_mono (by linarith)
      · calc round2 raw ≤ round2 200 := round2_mono (by linarith)
          _ = 200 := e200
  · norm_num [stored_bpm, fold_bpm, round2, roundHalfEven]
  · norm_num [stored_bpm, fold_bpm, round2, roundHalfEven]

/-- C4, witness: the amended range statement applied at raw tempo 100. -/
theorem C4_bpm_folding_witness :
    60 ≤ stored_bpm 100 ∧ stored_bpm 100 ≤ 200 :=
  C4_bpm_folding_amended.1 100 (by norm_num) (by norm_num)

/-- C4, counterexample to the claim as stated: a raw detected tempo of 25 is
below 60, is doubled once to 50, and the stored bpm 50 is still outside
[60, 200]. -/
theorem C4_raw25_counterexample : stored_bpm 25 = 50 ∧ (50 : ℚ) < 60 := by
  constructor
  · norm_num [stored_bpm, fold_bpm, round2, roundHalfEven]
  · norm_num

/-- C6: evaluation of the orchestrator counter loop at the failing input — a
one-track playlist whose track comes back with `file_source = unavailable`.
`process_single_track` still returns the track, so it is appended to
`processed_tracks` (making `analyzed_tracks = 1`) and, because its source is
unavailable, `failed_tracks` is also incremented: the committed state has
`analyzed_tracks + failed_tracks = 2 > 1 = total_tracks`, and the track
contributed to both counters, contradicting the claim. -/
theorem C6_unavailable_double_count :
    job_commits [TrackOutcome.processed FileSource.unavailable] =
      [{ total_tracks := 1, analyzed_tracks := 0, downloaded_tracks := 0,
         failed_tracks := 0 },
       { total_tracks := 1, analyzed_tracks := 1, downloaded_tracks := 0,
         failed_tracks := 1 }] ∧
    ∃ c ∈ job_commits [TrackOutcome.processed FileSource.unavailable],
      c.total_tracks < c.analyzed_tracks + c.failed_tracks := by
  constructor
  · rfl
  · refine ⟨{ total_tracks := 1, analyzed_tracks := 1, downloaded_tracks := 0,
              failed_tracks := 1 }, ?_, ?_⟩ <;> decide

/-- C8: evaluation of the object-store key computation at the failing input.
`generate_s3_key` appends the first 8 characters of a freshly drawn `uuid4`,
so two acquisition runs for the same (artist, title) compute different keys
and the step-1 existence check can never find the object uploaded by a
previous run, contradicting the claimed determinism. -/
theorem C8_s3_key_not_deterministic :
    generate_s3_key "Artist" "Song" "aaaaaaaa" = "audio/Artist/Song_aaaaaaaa.mp3" ∧
    generate_s3_key "Artist" "Song" "bbbbbbbb" = "audio/Artist/Song_bbbbbbbb.mp3" ∧
    generate_s3_key "Artist" "Song" "aaaaaaaa" ≠
      generate_s3_key "Artist" "Song" "bbbbbbbb" := by
  refine ⟨?_, ?_, ?_⟩ <;> decide

/-- C2, counterexample to the claim as stated: track A lasts 100 s, both
tracks are at 120 BPM in C with energy 0.5, so the pair scores overall 0.925
and gets a 24 s `smooth_blend`; A's mix-out point is unavailable, and
`_find_transition_start` puts the start at 79.5 s — the midpoint of
`[max(100-64, 75), 100-16]` — which is NOT clamped against the 24 s duration:
79.5 + 24 = 103.5 > 100 = duration(A). -/
theorem C2_overshoot_counterexample :
    cexTrackA.duration = some 100 ∧
    (create_transition cexTrackA cexTrackB 0).transition_start = 159/2 ∧
    (create_transition cexTrackA cexTrackB 0).transition_duration = 24 ∧
    ¬((create_transition cexTrackA cexTrackB 0).transition_start +
        (create_transition cexTrackA cexTrackB 0).transition_duration ≤ 100) := by
  refine ⟨rfl, ?_, ?_, ?_⟩ <;>
    simp +decide [create_transition, calculate_compatibility, bpmScore, keyScore, energyScore,
      styleScore, vocalScore, resolvedOutro, resolvedIntro, resolvedVocal, pyGet, pyGetD, truthy,
      track_to_dict_enhanced, cexTrackA, cexTrackB, optNum, optStr, calculate_key_compatibility,
      select_transition_technique, transition_duration_for, find_enhanced_transition_start,
      find_transition_start, round2, roundHalfEven] <;>
    norm_num [max_def, min_def, abs_eq_max_neg]

/-- C2, as amended: when track A's duration d is known and at least 65 s and
the chosen duration is the 16 s default, the planner's transition start is the
midpoint of `[max(d-64, 0.75·d), d-16]` (rounded to 2 decimals) and
`transition_start + transition_duration ≤ d` holds.  The clamp in the code
uses only the 16 s default, so the bound can fail for the 24 s smooth-blend
duration (see the counterexample) and for shorter tracks. -/
theorem C2_transition_start_amended (track_a track_b : Track) (pos : ℕ) (d : ℚ)
    (hd : track_a.duration = some d) (h65 : 65 ≤ d)
    (hdur : (create_transition track_a track_b pos).transition_duration = 16) :
    (create_transition track_a track_b pos).transition_start =
      round2 ((max (d - 64) (d * (3/4)) + (d - 16)) / 2) ∧
    (create_transition track_a track_b pos).transition_start +
      (create_transition track_a track_b pos).transition_duration ≤ d := by
  have hstart : (create_transition track_a track_b pos).transition_start =
      find_transition_start track_a := rfl
  have hdz : ¬ d = 0 := by linarith
  have hmid : find_transition_start track_a =
      round2 ((max (d - 64) (d * (3/4)) + (d - 16)) / 2) := by
    unfold find_transition_start
    rw [hd]
    dsimp only
    rw [if_neg hdz]
    congr 1
    rw [max_eq_right]
    have h1 : d * (3/4) ≤ max (d - 64) (d * (3/4)) := le_max_right _ _
    linarith
  refine ⟨hstart.trans hmid, ?_⟩
  rw [hstart, hmid, hdur]
  have hb : max (d - 64) (d * (3/4)) ≤ d - 1601/100 :=
    max_le (by linarith) (by linarith)
  have hr := round2_le ((max (d - 64) (d * (3/4)) + (d - 16)) / 2)
  linarith

/-- C2, witness: tracks at 120 BPM with energy 0.5 and no key data score
overall 0.725, get a `beatmatch` with the 16 s default duration, and for
A's 100 s duration the amended bound gives start 79.5 with
79.5 + 16 = 95.5 ≤ 100. -/
theorem C2_transition_start_witness :
    (create_transition cexTrackNoKey cexTrackB 0).transition_duration = 16 ∧
    (create_transition cexTrackNoKey cexTrackB 0).transition_start +
      (create_transition cexTrackNoKey cexTrackB 0).transition_duration ≤ 100 := by
  have hdur : (create_transition cexTrackNoKey cexTrackB 0).transition_duration = 16 := by
    simp +decide [create_transition, calculate_compatibility, bpmScore, keyScore, energyScore,
      styleScore, vocalScore, resolvedOutro, resolvedIntro, resolvedVocal, pyGet, pyGetD, truthy,
      track_to_dict_enhanced, cexTrackNoKey, cexTrackB, optNum, optStr,
      select_transition_technique, transition_duration_for]
    norm_num [max_def, min_def, abs_eq_max_neg]
    simp
  exact ⟨hdur,
    (C2_transition_start_amended cexTrackNoKey cexTrackB 0 100 rfl (by norm_num) hdur).2⟩

section EnhancedDictLemmas

theorem pyGet_enhanced_bpm (t : Track) :
    pyGet (track_to_dict_enhanced t) "bpm" = optNum t.bpm := rfl

theorem pyGet_enhanced_key (t : Track) :
    pyGet (track_to_dict_enhanced t) "key" = optStr t.key := rfl

theorem resolvedOutro_enhanced (t : Track) :
    resolvedOutro (track_to_dict_enhanced t) = optNum t.energy := rfl

theorem resolvedIntro_enhanced (t : Track) :
    resolvedIntro (track_to_dict_enhanced t) = optNum t.energy := rfl

theorem resolvedVocal_enhanced (t : Track) :
    resolvedVocal (track_to_dict_enhanced t) = PyVal.num 0 := rfl

theorem style_enhanced (t : Track) :
    pyGet (track_to_dict_enhanced t) "dominant_style" = PyVal.none := rfl

theorem styleScore_enhanced (ta tb : Track) :
    styleScore (track_to_dict_enhanced ta) (track_to_dict_enhanced tb) = 1/2 := by
  unfold styleScore
  rw [style_enhanced, style_enhanced]
  rfl

theorem vocalScore_enhanced (ta tb : Track) :
    vocalScore (track_to_dict_enhanced ta) (track_to_dict_enhanced tb) = some 1 := by
  unfold vocalScore
  rw [resolvedVocal_enhanced, resolvedVocal_enhanced]
  norm_num

theorem bpmScore_enhanced_some (ta tb : Track) :
    ∃ q, bpmScore (track_to_dict_enhanced ta) (track_to_dict_enhanced tb) = some q := by
  unfold bpmScore
  rw [pyGet_enhanced_bpm, pyGet_enhanced_bpm]
  rcases ta.bpm with _ | qa <;> rcases tb.bpm with _ | qb <;>
    dsimp only [optNum, truthy] <;> split_ifs <;>
      first | exact ⟨_, rfl⟩ | simp_all

theorem keyScore_enhanced_some (ta tb : Track) :
    ∃ q, keyScore (track_to_dict_enhanced ta) (track_to_dict_enhanced tb) = some q := by
  unfold keyScore
  rw [pyGet_enhanced_key, pyGet_enhanced_key]
  rcases ta.key with _ | sa <;> rcases tb.key with _ | sb <;>
    dsimp only [optStr, truthy] <;> split_ifs <;>
      first | exact ⟨_, rfl⟩ | simp_all

end EnhancedDictLemmas

/-- C10, as amended: the dict `_track_to_dict_enhanced` hands to the
compatibility scorer carries exactly the keys bpm, key, energy, danceability,
valence, loudness, style_data and mix_points — the last two always `None` —
and none of the dominant_style, vocal_centric, speechiness, outro_energy or
intro_energy keys the scorer would look for.  Hence, whenever both tracks
carry a numeric energy value, every planner-produced transition has style
compatibility exactly 0.5 and vocal compatibility exactly 1.0, and its energy
compatibility is `max 0 (1 - |energy(A) - energy(B)|)`, computed from the
whole-track energies.  (When a track's energy is `None` the scorer's energy
step raises instead, and style/vocal/overall stay 0.) -/
theorem C10_planner_dict_amended (ta tb : Track) (ea eb : ℚ)
    (hea : ta.energy = some ea) (heb : tb.energy = some eb) :
    pyKeys (track_to_dict_enhanced ta) =
      ["bpm", "key", "energy", "danceability", "valence", "loudness",
       "style_data", "mix_points"] ∧
    pyGet (track_to_dict_enhanced ta) "dominant_style" = PyVal.none ∧
    pyGet (track_to_dict_enhanced ta) "vocal_centric" = PyVal.none ∧
    pyGet (track_to_dict_enhanced ta) "speechiness" = PyVal.none ∧
    pyGet (track_to_dict_enhanced ta) "outro_energy" = PyVal.none ∧
    pyGet (track_to_dict_enhanced tb) "intro_energy" = PyVal.none ∧
    (calculate_compatibility (track_to_dict_enhanced ta)
        (track_to_dict_enhanced tb)).style_compatibility = 1/2 ∧
    (calculate_compatibility (track_to_dict_enhanced ta)
        (track_to_dict_enhanced tb)).vocal_compatibility = 1 ∧
    (calculate_compatibility (track_to_dict_enhanced ta)
        (track_to_dict_enhanced tb)).energy_compatibility =
      max 0 (1 - |ea - eb|) := by
  obtain ⟨bq, hbq⟩ := bpmScore_enhanced_some ta tb
  obtain ⟨kq, hkq⟩ := keyScore_enhanced_some ta tb
  have heq : energyScore (track_to_dict_enhanced ta) (track_to_dict_enhanced tb) =
      some (max 0 (1 - |ea - eb|)) := by
    unfold energyScore
    rw [resolvedOutro_enhanced, resolvedIntro_enhanced, hea, heb]
    rfl
  have hvq := vocalScore_enhanced ta tb
  have hsq := styleScore_enhanced ta tb
  refine ⟨rfl, rfl, rfl, rfl, rfl, rfl, ?_, ?_, ?_⟩
  · unfold calculate_compatibility
    rw [hbq, hkq, heq, hvq]
    dsimp only
    rw [hsq]
  · unfold calculate_compatibility
    rw [hbq, hkq, heq, hvq]
  · unfold calculate_compatibility
    rw [hbq, hkq, heq, hvq]

/-- C10, counterexample to the claim as stated: the planner dict is built by
`_track_to_dict_enhanced`, which adds `style_data` and `mix_points` entries,
so it does not contain only the six claimed fields; and for a track whose
energy descriptor is null (bpm present), the scorer's energy step raises and
the returned style compatibility is 0.0, not 0.5. -/
theorem C10_planner_dict_counterexample :
    "style_data" ∈ pyKeys (track_to_dict_enhanced cexTrackA) ∧
    (calculate_compatibility (track_to_dict_enhanced cexTrackNullEnergy)
        (track_to_dict_enhanced cexTrackB)).style_compatibility = 0 := by
  constructor
  · decide
  · obtain ⟨bq, hbq⟩ := bpmScore_enhanced_some cexTrackNullEnergy cexTrackB
    obtain ⟨kq, hkq⟩ := keyScore_enhanced_some cexTrackNullEnergy cexTrackB
    have heq : energyScore (track_to_dict_enhanced cexTrackNullEnergy)
        (track_to_dict_enhanced cexTrackB) = Option.none := by
      unfold energyScore
      rw [resolvedOutro_enhanced]
      rfl
    unfold calculate_compatibility
    rw [hbq, hkq, heq]

/-- C10, witness: the amended statement applied to two concrete tracks with
energies 0.5 and 0.5 — style compatibility 0.5, vocal compatibility 1, energy
compatibility 1. -/
theorem C10_planner_dict_witness :
    (calculate_compatibility (track_to_dict_enhanced cexTrackA)
        (track_to_dict_enhanced cexTrackB)).style_compatibility = 1/2 ∧
    (calculate_compatibility (track_to_dict_enhanced cexTrackA)
        (track_to_dict_enhanced cexTrackB)).vocal_compatibility = 1 ∧
    (calculate_compatibility (track_to_dict_enhanced cexTrackA)
        (track_to_dict_enhanced cexTrackB)).energy_compatibility =
      max 0 (1 - |(1/2 : ℚ) - 1/2|) := by
  have h := C10_planner_dict_amended cexTrackA cexTrackB (1/2) (1/2) rfl rfl
  exact ⟨h.2.2.2.2.2.2.1, h.2.2.2.2.2.2.2.1, h.2.2.2.2.2.2.2.2⟩

/-- C9: the BPM sub-score and the key sub-score of `calculate_compatibility`
are symmetric in the two tracks, and the energy sub-score depends on the
ordered pair only through the resolved outro energy of track A and the
resolved intro energy of track B (whenever the bpm and key steps complete,
which is order-symmetric). -/
theorem C9_symmetry (a b a2 b2 : PyDict) :
    (calculate_compatibility a b).bpm_compatibility =
      (calculate_compatibility b a).bpm_compatibility ∧
    (calculate_compatibility a b).key_compatibility =
      (calculate_compatibility b a).key_compatibility ∧
    (resolvedOutro a = resolvedOutro a2 → resolvedIntro b = resolvedIntro b2 →
      (bpmScore a b).isSome = true → (keyScore a b).isSome = true →
      (bpmScore a2 b2).isSome = true → (keyScore a2 b2).isSome = true →
      (calculate_compatibility a b).energy_compatibility =
        (calculate_compatibility a2 b2).energy_compatibility) := by
  refine ⟨?_, ?_, ?_⟩
  · rw [calc_bpm_field, calc_bpm_field, bpmScore_comm]
  · rw [calc_key_field, calc_key_field, bpmScore_comm, keyScore_comm]
  · intro h1 h2 hb1 hk1 hb2 hk2
    rw [calc_energy_field, calc_energy_field, if_pos ⟨hb1, hk1⟩, if_pos ⟨hb2, hk2⟩,
      energyScore_congr h1 h2]

/-- C9, witness: the energy-locality part applied to concrete dicts — a pair
(energy 0.5 + key C, energy 0.3) and a pair (energy 0.5, intro energy 0.3 with
a different whole-track energy) resolve to the same outro/intro energies and
get the same energy sub-score. -/
theorem C9_symmetry_witness :
    (calculate_compatibility c9DictA c9DictB).energy_compatibility =
      (calculate_compatibility c9DictA2 c9DictB2).energy_compatibility :=
  (C9_symmetry c9DictA c9DictB c9DictA2 c9DictB2).2.2 rfl rfl rfl rfl rfl rfl

/-- C7: submitting a playlist analysis request for a playlist url for which
some existing job is pending or processing returns that job's id, status and
current counters and leaves the job table unchanged; only when no such job
exists is a new (pending, zero-counter) job appended. -/
theorem C7_submission_dedup (db : List AnalysisJob) (url : String) (fresh_id : ℕ) :
    ((∃ j ∈ db, is_active_for url j = true) →
      (analyze_playlist db url fresh_id).2 = db ∧
      ∃ j ∈ db, is_active_for url j = true ∧
        (analyze_playlist db url fresh_id).1 = response_of j) ∧
    ((∀ j ∈ db, is_active_for url j = false) →
      (analyze_playlist db url fresh_id).2 = db ++ [new_job fresh_id url] ∧
      (analyze_playlist db url fresh_id).1.id = fresh_id ∧
      (analyze_playlist db url fresh_id).1.status = JobStatus.pending) := by
  constructor
  · rintro ⟨j, hj, hact⟩
    have hsome : (db.find? (is_active_for url)).isSome := by
      rw [List.find?_isSome]
      exact ⟨j, hj, hact⟩
    obtain ⟨j2, hj2⟩ := Option.isSome_iff_exists.mp hsome
    unfold analyze_playlist
    rw [hj2]
    exact ⟨rfl, j2, List.mem_of_find?_eq_some hj2, List.find?_some hj2, rfl⟩
  · intro h
    have hnone : db.find? (is_active_for url) = Option.none := by
      rw [List.find?_eq_none]
      intro x hx
      simp [h x hx]
    unfold analyze_playlist
    rw [hnone]
    exact ⟨rfl, rfl, rfl⟩

/-- C7, witness: with a single pending job for url "u" in the table, a second
submission for "u" returns that job's response and adds nothing; and on an
empty table a new job is created. -/
theorem C7_submission_dedup_witness :
    ((analyze_playlist [new_job 1 "u"] "u" 2).2 = [new_job 1 "u"] ∧
      ∃ j ∈ [new_job 1 "u"], is_active_for "u" j = true ∧
        (analyze_playlist [new_job 1 "u"] "u" 2).1 = response_of j) ∧
    (analyze_playlist [] "u" 2).2 = [] ++ [new_job 2 "u"] := by
  constructor
  · exact (C7_submission_dedup [new_job 1 "u"] "u" 2).1
      ⟨new_job 1 "u", by decide, by decide⟩
  · exact ((C7_submission_dedup [] "u" 2).2 (by intro j hj; cases hj)).1

/-- C5: for every pair of well-formed track records (bpm absent or
non-negative, key absent or a string, energy/outro/intro and vocal descriptors
numbers in [0, 1]), `calculate_compatibility` produces the overall score as
exactly 0.25·BPM + 0.20·Key + 0.30·Energy + 0.15·Style + 0.10·Vocal, and every
sub-score as well as the overall score lies in [0, 1]. -/
theorem C5_compatibility_weighted_and_bounded (a b : PyDict)
    (ha : track_record_ok a = true) (hb : track_record_ok b = true) :
    (calculate_compatibility a b).overall_score =
      (calculate_compatibility a b).bpm_compatibility * (1/4) +
      (calculate_compatibility a b).key_compatibility * (1/5) +
      (calculate_compatibility a b).energy_compatibility * (3/10) +
      (calculate_compatibility a b).style_compatibility * (3/20) +
      (calculate_compatibility a b).vocal_compatibility * (1/10) ∧
    (0 ≤ (calculate_compatibility a b).bpm_compatibility ∧
      (calculate_compatibility a b).bpm_compatibility ≤ 1) ∧
    (0 ≤ (calculate_compatibility a b).key_compatibility ∧
      (calculate_compatibility a b).key_compatibility ≤ 1) ∧
    (0 ≤ (calculate_compatibility a b).energy_compatibility ∧
      (calculate_compatibility a b).energy_compatibility ≤ 1) ∧
    (0 ≤ (calculate_compatibility a b).style_compatibility ∧
      (calculate_compatibility a b).style_compatibility ≤ 1) ∧
    (0 ≤ (calculate_compatibility a b).vocal_compatibility ∧
      (calculate_compatibility a b).vocal_compatibility ≤ 1) ∧
    (0 ≤ (calculate_compatibility a b).overall_score ∧
      (calculate_compatibility a b).overall_score ≤ 1) := by
  unfold track_record_ok at ha hb
  rw [Bool.and_eq_true, Bool.and_eq_true, Bool.and_eq_true, Bool.and_eq_true] at ha hb
  obtain ⟨⟨⟨⟨ha1, ha2⟩, ha3⟩, ha4⟩, ha5⟩ := ha
  obtain ⟨⟨⟨⟨hb1, hb2⟩, hb3⟩, hb4⟩, hb5⟩ := hb
  obtain ⟨bc, hbc, hbc0, hbc1⟩ := bpmScore_ok ha1 hb1
  obtain ⟨kc, hkc, hkc0, hkc1⟩ := keyScore_ok ha2 hb2
  obtain ⟨ec, hec, hec0, hec1⟩ := energyScore_ok ha3 hb4
  obtain ⟨vc, hvc, hvc0, hvc1⟩ := vocalScore_ok ha5 hb5
  obtain ⟨hs0, hs1⟩ := styleScore_bounds a b
  unfold calculate_compatibility
  rw [hbc, hkc, hec, hvc]
  dsimp only
  refine ⟨by ring, ⟨hbc0, hbc1⟩, ⟨hkc0, hkc1⟩, ⟨hec0, hec1⟩, ⟨hs0, hs1⟩,
    ⟨hvc0, hvc1⟩, ⟨by positivity, by linarith⟩⟩

/-- C5, witness: the statement applied to the planner dicts of two concrete
well-formed track records (120 BPM, key C, energy 0.5). -/
theorem C5_compatibility_witness :
    0 ≤ (calculate_compatibility (track_to_dict_enhanced cexTrackA)
          (track_to_dict_enhanced cexTrackB)).overall_score ∧
    (calculate_compatibility (track_to_dict_enhanced cexTrackA)
          (track_to_dict_enhanced cexTrackB)).overall_score ≤ 1 := by
  have hok : ∀ t : Track, t = cexTrackA ∨ t = cexTrackB →
      track_record_ok (track_to_dict_enhanced t) = true := by
    rintro t (rfl | rfl) <;>
      (unfold track_record_ok bpm_entry_ok key_entry_ok unit_num
        <;> rw [pyGet_enhanced_bpm, pyGet_enhanced_key, resolvedOutro_enhanced,
              resolvedIntro_enhanced, resolvedVocal_enhanced]
        <;> simp [cexTrackA, cexTrackB, optNum, optStr]
        <;> norm_num)
  exact (C5_compatibility_weighted_and_bounded
    (track_to_dict_enhanced cexTrackA) (track_to_dict_enhanced cexTrackB)
    (hok cexTrackA (Or.inl rfl)) (hok cexTrackB (Or.inr rfl))).2.2.2.2.2.2
